import Mathlib

set_option maxRecDepth 100000

/-!
# Verification of the NL-to-SQL core of the business-intelligence agent

Shallow embedding of the natural-language-to-SQL translation engine:

* `QueryUtils`   embeds `src/utils/query_utils.py` (module-level pipeline
  `nlp_to_sql` and its helpers);
* `DataUtilities` embeds the `QueryGenerator` class of
  `src/utils/data_utilities.py` (the near-duplicate class-based pipeline);
* `DataAgent`    embeds the `VisualizationEngine` class of
  `src/Data_Agent.py` (result-shape visualization selector).

Python dictionaries iterate in insertion order; they are embedded as
association lists in that order.  Python strings are embedded as Lean
`String`s; `str.lower()` is embedded as ASCII lowercasing (all keyword
matching in the source is over ASCII text).
-/

/-- `startsWithChars pat l` : `pat` is a prefix of `l` (character lists). -/
def startsWithChars : List Char → List Char → Bool
  | [], _ => true
  | _ :: _, [] => false
  | a :: as, b :: bs => a == b && startsWithChars as bs

/-- `containsChars pat l` : `pat` occurs as a contiguous substring of `l`.
Embeds Python's `pat in l` on strings (the empty pattern matches). -/
def containsChars (pat : List Char) : List Char → Bool
  | [] => startsWithChars pat []
  | l@(_ :: t) => startsWithChars pat l || containsChars pat t

/-- Python `pat in hay` substring test on strings. -/
def strContains (hay pat : String) : Bool :=
  containsChars pat.data hay.data

/-- Python `any(kw in hay for kw in kws)`. -/
def containsAnyKw (hay : String) (kws : List String) : Bool :=
  kws.any (fun kw => strContains hay kw)

/-- Python `s.lower()` (ASCII lowercasing, character by character; the
source only lowercases ASCII keyword text).  Structurally recursive so
that concrete instances reduce inside the kernel. -/
def pyLower (s : String) : String :=
  String.mk (s.data.map Char.toLower)

/-- Embeds Python `name.lower().replace('_', ' ')` (single-character
replacement is a character map). -/
def pyNormName (s : String) : String :=
  String.mk ((pyLower s).data.map (fun c => if c == '_' then ' ' else c))

/-- One column of a table, as the introspection dictionaries store it:
`{'name': ..., 'type': ..., 'pk': ...}`. -/
structure Column where
  name : String
  type : String
  pk : Bool
deriving DecidableEq, Repr

/-- One table's schema information: `{'columns': [...], 'row_count': ...}`. -/
structure TableInfo where
  columns : List Column
  row_count : Int
deriving DecidableEq, Repr

/-- A schema dictionary `table name ↦ table info`, as an association list in
the dictionary's insertion order (Python dict keys are unique and iterate in
insertion order). -/
abbrev Schema := List (String × TableInfo)

/-- Result dictionary returned by the SQL generators: either the failure
shape `{'success': False, 'message': ...}` or the success shape
`{'success': True, 'query': ..., 'visualization_type': ...,
'explanation': ..., 'table': ..., 'x_axis': ..., 'y_axis': ...}`. -/
inductive QueryResult where
  | failure (message : String)
  | success (query visualization_type explanation table x_axis y_axis : String)
deriving DecidableEq, Repr

/-- Outcome of calling a Python generator function: an explicit result
dictionary, the implicit `None` of a body that is `pass` / falls off the
end, or an uncaught exception (named by its Python class). -/
inductive PyValue where
  | none
  | result (r : QueryResult)
  | error (exc : String)
deriving DecidableEq, Repr

/-- The closed intent enumeration of the spec; `generic` is the fallback
when no keyword set matches. -/
inductive Intent where
  | trend | distribution | topN | comparison | aggregate | generic
deriving DecidableEq, Repr

/-- Python `max(l, key=key)` over a non-empty list `best :: l`: keeps the
current maximum and replaces it only on a strictly greater key, so the
first element attaining the maximum wins. -/
def pyMax1 {α : Type} (key : α → Int) : α → List α → α
  | best, [] => best
  | best, x :: xs => pyMax1 key (if key best < key x then x else best) xs

namespace QueryUtils

/-- Keyword lists of `nlp_to_sql` (src/utils/query_utils.py lines 31-35). -/
def trendKeywords : List String := ["trend", "over time", "by month", "by day", "timeseries"]

def distributionKeywords : List String :=
  ["distribution", "breakdown", "by category", "percentage", "proportion"]

def topKeywords : List String := ["top", "highest", "most", "best"]

def comparisonKeywords : List String := ["compare", "versus", "against", "difference"]

def aggregateKeywords : List String := ["total", "sum", "average", "count", "min", "max"]

/-- Column-mention score of a table for a query: the number of columns whose
normalized name occurs in the lower-cased query (the inner loop of
`identify_relevant_table`, lines 65-69). -/
def colScore (queryLower : String) (t : TableInfo) : Nat :=
  (t.columns.filter (fun c => strContains queryLower (pyNormName c.name))).length

/-- `identify_relevant_table` (lines 51-79).  Python returns the table name
and the caller immediately indexes the schema dictionary with it; since
dictionary keys are unique the entry is determined by the name, so the
embedding returns the matched `(name, info)` entry. -/
def identify_relevant_table (query : String) (schema : Schema) : Option (String × TableInfo) :=
  let ql := (pyLower query)
  match schema.find? (fun e => strContains ql (pyNormName e.1)) with
  | some e => some e
  | none =>
    match schema with
    | [] => none
    | a :: rest =>
      if (a :: rest).any (fun e => 0 < colScore ql e.2) then
        some (pyMax1 (fun e => (colScore ql e.2 : Int)) a rest)
      else
        some (pyMax1 (fun e => e.2.row_count) a rest)

/-- Time keywords of `identify_time_column` (line 83). -/
def timeKeywords : List String :=
  ["time", "date", "day", "month", "year", "created", "updated", "at"]

/-- `identify_time_column` (lines 81-90): first column whose lower-cased
name contains a time keyword. -/
def identify_time_column (t : TableInfo) : Option String :=
  (t.columns.find? (fun c => containsAnyKw (pyLower c.name) timeKeywords)).map (·.name)

/-- Category keywords of `identify_category_column` (line 96). -/
def categoryKeywords : List String :=
  ["type", "category", "name", "status", "level", "tier", "group", "department"]

/-- `identify_category_column` (lines 92-118): category-named column, else
textual non-time column, else non-primary-key column, else first column. -/
def identify_category_column (t : TableInfo) : Option String :=
  match t.columns.find? (fun c => containsAnyKw (pyLower c.name) categoryKeywords) with
  | some c => some c.name
  | none =>
    match t.columns.find? (fun c =>
        (strContains (pyLower c.type) "char" || strContains (pyLower c.type) "text")
          && !containsAnyKw (pyLower c.name) timeKeywords) with
    | some c => some c.name
    | none =>
      match t.columns.find? (fun c => !c.pk) with
      | some c => some c.name
      | none => (t.columns.head?).map (·.name)

/-- Value keywords of `identify_numeric_column` (line 123). -/
def valueKeywords : List String :=
  ["count", "amount", "value", "price", "cost", "quantity", "num", "total", "sum"]

/-- `identify_numeric_column` (lines 120-139): value-named column, else
numeric-typed non-primary-key column, else the sentinel `*`. -/
def identify_numeric_column (t : TableInfo) : String :=
  match t.columns.find? (fun c => containsAnyKw (pyLower c.name) valueKeywords) with
  | some c => c.name
  | none =>
    match t.columns.find? (fun c =>
        containsAnyKw (pyLower c.type) ["int", "float", "double", "real", "numeric"]
          && !c.pk) with
    | some c => c.name
    | none => "*"

/-- Python regex `\s` over ASCII: space, tab, newline, carriage return,
vertical tab, form feed. -/
def wsChar (c : Char) : Bool :=
  c == ' ' || c == '\t' || c == '\n' || c == '\r' || c == '\x0b' || c == '\x0c'

/-- If `pat` is a prefix of `l`, the remainder of `l` after it. -/
def matchPrefixRest : List Char → List Char → Option (List Char)
  | [], l => some l
  | _ :: _, [] => none
  | a :: as, b :: bs => if a == b then matchPrefixRest as bs else none

/-- Try each word of `ws` in order as a prefix of `l` (regex alternation
`(?:top|first|highest|best)` tried left to right); none of these words is a
prefix of another, so at most one can match. -/
def matchAnyWordRest : List String → List Char → Option (List Char)
  | [], _ => none
  | w :: ws, l =>
    match matchPrefixRest w.data l with
    | some r => some r
    | none => matchAnyWordRest ws l

/-- The superlative alternation of `extract_limit` (line 160), in the
pattern's order. -/
def superlatives : List String := ["top", "first", "highest", "best"]

/-- Numeric value of a digit run (Python `int` of the captured group). -/
def digitsToNat (ds : List Char) : Nat :=
  ds.foldl (fun acc c => 10 * acc + (c.toNat - '0'.toNat)) 0

/-- First regex alternative `(?:top|first|highest|best)\s+(\d+)` anchored at
the head of `l`: a superlative word, then at least one whitespace
character, then the captured (greedy, hence maximal) digit run.  Whitespace
and digits are disjoint, so the greedy quantifiers need no backtracking. -/
def tryAltKwNum (l : List Char) : Option Nat :=
  match matchAnyWordRest superlatives l with
  | none => none
  | some r =>
    let ws := r.takeWhile wsChar
    if ws.isEmpty then none
    else
      let ds := (r.dropWhile wsChar).takeWhile Char.isDigit
      if ds.isEmpty then none else some (digitsToNat ds)

/-- Second regex alternative `(\d+)\s+(?:top|first|highest|best)` anchored
at the head of `l`. -/
def tryAltNumKw (l : List Char) : Option Nat :=
  let ds := l.takeWhile Char.isDigit
  if ds.isEmpty then none
  else
    let r := l.dropWhile Char.isDigit
    let ws := r.takeWhile wsChar
    if ws.isEmpty then none
    else
      match matchAnyWordRest superlatives (r.dropWhile wsChar) with
      | some _ => some (digitsToNat ds)
      | none => none

/-- `re.search` of the pattern
`(?:top|first|highest|best)\s+(\d+)|(\d+)\s+(?:top|first|highest|best)`
(line 160): leftmost match wins, with the first alternative preferred at
each position; the value is the single non-`None` captured group.  Neither
alternative can match at the empty final position, so scanning ends at
`[]`. -/
def regexSearchLimit : List Char → Option Nat
  | [] => none
  | l@(_ :: t) =>
    match tryAltKwNum l with
    | some n => some n
    | none =>
      match tryAltNumKw l with
      | some n => some n
      | none => regexSearchLimit t

/-- `extract_limit` (lines 157-173).  Note the default-10 fallback keyword
list (line 170) is `['top', 'highest', 'best']` — it does not include
`'first'`. -/
def extract_limit (query : String) : Option Nat :=
  let ql := (pyLower query)
  match regexSearchLimit ql.data with
  | some n => some n
  | none => if containsAnyKw ql ["top", "highest", "best"] then some 10 else none

/-- `identify_aggregation_function` (lines 141-155). -/
def identify_aggregation_function (query : String) : String :=
  let ql := (pyLower query)
  if strContains ql "average" || strContains ql "avg" then "AVG"
  else if strContains ql "sum" || strContains ql "total" then "SUM"
  else if strContains ql "minimum" || strContains ql "min" then "MIN"
  else if strContains ql "maximum" || strContains ql "max" then "MAX"
  else if strContains ql "count" || strContains ql "how many" || strContains ql "number of" then "COUNT"
  else "COUNT"

/-- `generate_trend_query` (lines 175-223).  Python's `if not table_name:`
and `if not time_column:` treat both `None` and the empty string as
missing, so the embedding checks emptiness explicitly after a successful
lookup. -/
def generate_trend_query (query : String) (schema : Schema) : QueryResult :=
  match identify_relevant_table query schema with
  | none => .failure "Could not identify a relevant table for this query."
  | some (table_name, table_info) =>
    if table_name = "" then .failure "Could not identify a relevant table for this query."
    else
      match identify_time_column table_info with
      | none => .failure "Could not identify a time-based column for trend analysis."
      | some time_column =>
        if time_column = "" then
          .failure "Could not identify a time-based column for trend analysis."
        else
          let value_column := identify_numeric_column table_info
          let agg_func := identify_aggregation_function query
          let time_format :=
            if containsAnyKw (pyLower time_column) ["time", "date", "_at"] then
              "strftime(\x27%Y-%m\x27, " ++ time_column ++ ")"
            else time_column
          .success
            ("\n    SELECT " ++ time_format ++ " as time_period, " ++ agg_func ++ "("
              ++ value_column ++ ") as value \n    FROM " ++ table_name
              ++ " \n    WHERE " ++ time_column
              ++ " IS NOT NULL\n    GROUP BY time_period \n    ORDER BY time_period;\n    ")
            "line"
            ("Analyzing " ++ (pyLower agg_func) ++ " of " ++ value_column
              ++ " over time from " ++ table_name)
            table_name "time_period" "value"

/-- `generate_distribution_query` (lines 225-264). -/
def generate_distribution_query (query : String) (schema : Schema) : QueryResult :=
  match identify_relevant_table query schema with
  | none => .failure "Could not identify a relevant table for this query."
  | some (table_name, table_info) =>
    if table_name = "" then .failure "Could not identify a relevant table for this query."
    else
      match identify_category_column table_info with
      | none => .failure "Could not identify a categorical column for distribution analysis."
      | some category_column =>
        if category_column = "" then
          .failure "Could not identify a categorical column for distribution analysis."
        else
          .success
            ("\n    SELECT " ++ category_column ++ ", COUNT(*) as count \n    FROM "
              ++ table_name ++ " \n    WHERE " ++ category_column
              ++ " IS NOT NULL\n    GROUP BY " ++ category_column
              ++ " \n    ORDER BY count DESC;\n    ")
            (if strContains (pyLower query) "percentage" then "pie" else "bar")
            ("Analyzing distribution of " ++ category_column ++ " in " ++ table_name)
            table_name category_column "count"

/-- `generate_top_query` (lines 266-270): the body is `pass`, so the call
returns Python `None`. -/
def generate_top_query (_query : String) (_schema : Schema) : PyValue := .none

/-- `generate_comparison_query` (lines 272-275): body is `pass`. -/
def generate_comparison_query (_query : String) (_schema : Schema) : PyValue := .none

/-- `generate_aggregate_query` (lines 277-280): body is `pass`. -/
def generate_aggregate_query (_query : String) (_schema : Schema) : PyValue := .none

/-- `generate_generic_query` (lines 282-285): body is `pass`. -/
def generate_generic_query (_query : String) (_schema : Schema) : PyValue := .none

/-- `nlp_to_sql` (lines 17-49): computes the five keyword-set membership
flags over the lower-cased query and dispatches on the first true flag in
the fixed order trend, distribution, top, comparison, aggregate, generic. -/
def nlp_to_sql (query : String) (schema : Schema) : PyValue :=
  let ql := (pyLower query)
  if containsAnyKw ql trendKeywords then .result (generate_trend_query query schema)
  else if containsAnyKw ql distributionKeywords then
    .result (generate_distribution_query query schema)
  else if containsAnyKw ql topKeywords then generate_top_query query schema
  else if containsAnyKw ql comparisonKeywords then generate_comparison_query query schema
  else if containsAnyKw ql aggregateKeywords then generate_aggregate_query query schema
  else generate_generic_query query schema

/-- The intent implicitly computed by `nlp_to_sql`'s flag cascade (lines
31-49), named as the spec's `QueryIntent` enumeration. -/
def classifyIntent (query : String) : Intent :=
  let ql := (pyLower query)
  if containsAnyKw ql trendKeywords then .trend
  else if containsAnyKw ql distributionKeywords then .distribution
  else if containsAnyKw ql topKeywords then .topN
  else if containsAnyKw ql comparisonKeywords then .comparison
  else if containsAnyKw ql aggregateKeywords then .aggregate
  else .generic

/-- The generator `nlp_to_sql` hands a query to, per intent. -/
def dispatchIntent : Intent → String → Schema → PyValue
  | .trend, q, s => .result (generate_trend_query q s)
  | .distribution, q, s => .result (generate_distribution_query q s)
  | .topN, q, s => generate_top_query q s
  | .comparison, q, s => generate_comparison_query q s
  | .aggregate, q, s => generate_aggregate_query q s
  | .generic, q, s => generate_generic_query q s

end QueryUtils

namespace DataUtilities

/-!
Embedding of the `QueryGenerator` class of `src/utils/data_utilities.py`.
The class keeps no mutable state (`self.query_templates` is a constant
dictionary built in `__init__`), so its methods are embedded as plain
functions.  Python's private-name underscore prefix (`_identify_...`) is
dropped.
-/

/-- Pattern lists of `_load_templates` (lines 254-277), keyed in the
dictionary's insertion order trend, distribution, top, comparison,
aggregate. -/
def trendPatterns : List String := ["trend", "over time", "by month", "by day", "timeseries"]

def distributionPatterns : List String :=
  ["distribution", "breakdown", "by category", "percentage", "proportion"]

def topPatterns : List String := ["top", "highest", "most", "best"]

def comparisonPatterns : List String := ["compare", "versus", "against", "difference"]

def aggregatePatterns : List String := ["total", "sum", "average", "count", "min", "max"]

/-- Column-mention score (inner loop of `_identify_relevant_table`,
lines 333-337). -/
def colScore (queryLower : String) (t : TableInfo) : Nat :=
  (t.columns.filter (fun c => strContains queryLower (pyNormName c.name))).length

/-- `_identify_relevant_table` (lines 319-347); same convention as
`QueryUtils.identify_relevant_table` (returns the matched entry). -/
def identify_relevant_table (query : String) (schema : Schema) : Option (String × TableInfo) :=
  let ql := (pyLower query)
  match schema.find? (fun e => strContains ql (pyNormName e.1)) with
  | some e => some e
  | none =>
    match schema with
    | [] => none
    | a :: rest =>
      if (a :: rest).any (fun e => 0 < colScore ql e.2) then
        some (pyMax1 (fun e => (colScore ql e.2 : Int)) a rest)
      else
        some (pyMax1 (fun e => e.2.row_count) a rest)

/-- `_identify_time_column` (lines 349-358). -/
def identify_time_column (t : TableInfo) : Option String :=
  (t.columns.find? (fun c => containsAnyKw (pyLower c.name) QueryUtils.timeKeywords)).map (·.name)

/-- `_identify_category_column` (lines 360-386). -/
def identify_category_column (t : TableInfo) : Option String :=
  match t.columns.find? (fun c => containsAnyKw (pyLower c.name) QueryUtils.categoryKeywords) with
  | some c => some c.name
  | none =>
    match t.columns.find? (fun c =>
        (strContains (pyLower c.type) "char" || strContains (pyLower c.type) "text")
          && !containsAnyKw (pyLower c.name) QueryUtils.timeKeywords) with
    | some c => some c.name
    | none =>
      match t.columns.find? (fun c => !c.pk) with
      | some c => some c.name
      | none => (t.columns.head?).map (·.name)

/-- `_identify_numeric_column` (lines 388-407). -/
def identify_numeric_column (t : TableInfo) : String :=
  match t.columns.find? (fun c => containsAnyKw (pyLower c.name) QueryUtils.valueKeywords) with
  | some c => c.name
  | none =>
    match t.columns.find? (fun c =>
        containsAnyKw (pyLower c.type) ["int", "float", "double", "real", "numeric"]
          && !c.pk) with
    | some c => c.name
    | none => "*"

/-- Entity-noun list of `_identify_entity_column` (line 411). -/
def entityKeywords : List String :=
  ["user", "customer", "product", "employee", "account", "item", "client"]

/-- Nested loop `for needle in needles: for col in cols: if needle in
col.name.lower(): return col.name` used twice by
`_identify_entity_column`. -/
def findFirstEntityMatch : List String → List Column → Option String
  | [], _ => none
  | e :: es, cols =>
    match cols.find? (fun c => strContains (pyLower c.name) e) with
    | some c => some c.name
    | none => findFirstEntityMatch es cols

/-- `_identify_entity_column` (lines 409-443): query-mentioned entity noun
in a column name, else `<entity>_id` column, else name/title/description
column, else primary key, else first column. -/
def identify_entity_column (t : TableInfo) (query : String) : Option String :=
  match findFirstEntityMatch
      (entityKeywords.filter (fun kw => strContains (pyLower query) kw)) t.columns with
  | some n => some n
  | none =>
    match findFirstEntityMatch (entityKeywords.map (fun e => e ++ "_id")) t.columns with
    | some n => some n
    | none =>
      match t.columns.find? (fun c =>
          strContains (pyLower c.name) "name" || strContains (pyLower c.name) "title"
            || strContains (pyLower c.name) "description") with
      | some c => some c.name
      | none =>
        match t.columns.find? (fun c => c.pk) with
        | some c => some c.name
        | none => (t.columns.head?).map (·.name)

/-- `_identify_aggregation_function` (lines 445-459). -/
def identify_aggregation_function (query : String) : String :=
  let ql := (pyLower query)
  if strContains ql "average" || strContains ql "avg" then "AVG"
  else if strContains ql "sum" || strContains ql "total" then "SUM"
  else if strContains ql "minimum" || strContains ql "min" then "MIN"
  else if strContains ql "maximum" || strContains ql "max" then "MAX"
  else if strContains ql "count" || strContains ql "how many" || strContains ql "number of" then "COUNT"
  else "COUNT"

/-- `_extract_limit` (lines 461-477): same regex and fallback as
`QueryUtils.extract_limit`. -/
def extract_limit (query : String) : Option Nat :=
  let ql := (pyLower query)
  match QueryUtils.regexSearchLimit ql.data with
  | some n => some n
  | none => if containsAnyKw ql ["top", "highest", "best"] then some 10 else none

/-- `_generate_trend_query` (lines 479-527): identical logic to
`QueryUtils.generate_trend_query`, but the method body sits one
indentation level deeper, so each line of the SQL f-string carries eight
leading spaces instead of four. -/
def generate_trend_query (query : String) (schema : Schema) : QueryResult :=
  match identify_relevant_table query schema with
  | none => .failure "Could not identify a relevant table for this query."
  | some (table_name, table_info) =>
    if table_name = "" then .failure "Could not identify a relevant table for this query."
    else
      match identify_time_column table_info with
      | none => .failure "Could not identify a time-based column for trend analysis."
      | some time_column =>
        if time_column = "" then
          .failure "Could not identify a time-based column for trend analysis."
        else
          let value_column := identify_numeric_column table_info
          let agg_func := identify_aggregation_function query
          let time_format :=
            if containsAnyKw (pyLower time_column) ["time", "date", "_at"] then
              "strftime(\x27%Y-%m\x27, " ++ time_column ++ ")"
            else time_column
          .success
            ("\n        SELECT " ++ time_format ++ " as time_period, " ++ agg_func ++ "("
              ++ value_column ++ ") as value \n        FROM " ++ table_name
              ++ " \n        WHERE " ++ time_column
              ++ " IS NOT NULL\n        GROUP BY time_period \n        ORDER BY time_period;\n        ")
            "line"
            ("Analyzing " ++ (pyLower agg_func) ++ " of " ++ value_column
              ++ " over time from " ++ table_name)
            table_name "time_period" "value"

/-- `_generate_distribution_query` (lines 529-568): identical logic to
`QueryUtils.generate_distribution_query` up to the eight-space
indentation of the SQL f-string. -/
def generate_distribution_query (query : String) (schema : Schema) : QueryResult :=
  match identify_relevant_table query schema with
  | none => .failure "Could not identify a relevant table for this query."
  | some (table_name, table_info) =>
    if table_name = "" then .failure "Could not identify a relevant table for this query."
    else
      match identify_category_column table_info with
      | none => .failure "Could not identify a categorical column for distribution analysis."
      | some category_column =>
        if category_column = "" then
          .failure "Could not identify a categorical column for distribution analysis."
        else
          .success
            ("\n        SELECT " ++ category_column ++ ", COUNT(*) as count \n        FROM "
              ++ table_name ++ " \n        WHERE " ++ category_column
              ++ " IS NOT NULL\n        GROUP BY " ++ category_column
              ++ " \n        ORDER BY count DESC;\n        ")
            (if strContains (pyLower query) "percentage" then "pie" else "bar")
            ("Analyzing distribution of " ++ category_column ++ " in " ++ table_name)
            table_name category_column "count"

/-- `_generate_top_query` (lines 570-616).  `LIMIT {limit or 10}`: Python
`or` replaces both `None` and the falsy `0` with 10. -/
def generate_top_query (query : String) (schema : Schema) : QueryResult :=
  match identify_relevant_table query schema with
  | none => .failure "Could not identify a relevant table for this query."
  | some (table_name, table_info) =>
    if table_name = "" then .failure "Could not identify a relevant table for this query."
    else
      match identify_entity_column table_info query with
      | none => .failure "Could not identify an entity column for this query."
      | some entity_column =>
        if entity_column = "" then
          .failure "Could not identify an entity column for this query."
        else
          let value_column := identify_numeric_column table_info
          let agg_func := identify_aggregation_function query
          let limitVal :=
            match extract_limit query with
            | some n => if n = 0 then 10 else n
            | none => 10
          .success
            ("\n        SELECT " ++ entity_column ++ ", " ++ agg_func ++ "("
              ++ value_column ++ ") as value \n        FROM " ++ table_name
              ++ " \n        GROUP BY " ++ entity_column
              ++ " \n        ORDER BY value DESC\n        LIMIT " ++ toString limitVal
              ++ ";\n        ")
            "bar"
            ("Finding top " ++ toString limitVal ++ " " ++ entity_column ++ " by "
              ++ (pyLower agg_func) ++ " of " ++ value_column ++ " in " ++ table_name)
            table_name entity_column "value"

/-- `_generate_comparison_query` (lines 618-660). -/
def generate_comparison_query (query : String) (schema : Schema) : QueryResult :=
  match identify_relevant_table query schema with
  | none => .failure "Could not identify a relevant table for this query."
  | some (table_name, table_info) =>
    if table_name = "" then .failure "Could not identify a relevant table for this query."
    else
      match identify_category_column table_info with
      | none => .failure "Could not identify a categorical column for comparison."
      | some category_column =>
        if category_column = "" then
          .failure "Could not identify a categorical column for comparison."
        else
          let value_column := identify_numeric_column table_info
          let agg_func := identify_aggregation_function query
          .success
            ("\n        SELECT " ++ category_column ++ ", " ++ agg_func ++ "("
              ++ value_column ++ ") as value \n        FROM " ++ table_name
              ++ " \n        GROUP BY " ++ category_column
              ++ " \n        ORDER BY value DESC;\n        ")
            "bar"
            ("Comparing " ++ category_column ++ " by " ++ (pyLower agg_func) ++ " of "
              ++ value_column ++ " in " ++ table_name)
            table_name category_column "value"

/-- `_generate_aggregate_query` (lines 662-671): the source file ends in
the middle of this method, right after the table-resolution failure
return, so with a table resolved control falls off the truncated body and
Python returns `None`. -/
def generate_aggregate_query (query : String) (schema : Schema) : PyValue :=
  match identify_relevant_table query schema with
  | none => .result (.failure "Could not identify a relevant table for this query.")
  | some (table_name, _) =>
    if table_name = "" then
      .result (.failure "Could not identify a relevant table for this query.")
    else .none

/-- `generate_sql` (lines 279-317): scans the template dictionary in
insertion order for the first pattern list matching the lower-cased query
and dispatches; with no match it calls `self._generate_generic_query`, a
method the class never defines, so that path raises `AttributeError`. -/
def generate_sql (query : String) (schema : Schema) : PyValue :=
  let ql := (pyLower query)
  if containsAnyKw ql trendPatterns then .result (generate_trend_query query schema)
  else if containsAnyKw ql distributionPatterns then
    .result (generate_distribution_query query schema)
  else if containsAnyKw ql topPatterns then .result (generate_top_query query schema)
  else if containsAnyKw ql comparisonPatterns then
    .result (generate_comparison_query query schema)
  else if containsAnyKw ql aggregatePatterns then generate_aggregate_query query schema
  else .error "AttributeError"

end DataUtilities

namespace DataAgent

/-!
Embedding of the `VisualizationEngine` class of `src/Data_Agent.py`
(lines 410-602).  The engine holds no mutable state, so its methods are
embedded as plain functions.
-/

/-- A Python value appearing in a result row, as far as the engine
inspects it: it only ever asks `isinstance(value, (int, float))`,
`isinstance(value, str)`, and parses strings, so a float's magnitude never
influences the outcome and is not carried.  `other` stands for any value
of another type (`None`, lists, ...). -/
inductive Value where
  | int (n : Int)
  | float
  | str (s : String)
  | other
deriving DecidableEq, Repr

/-- One result row: a Python dictionary `column name ↦ value` in insertion
order (the order the columns were selected in the SQL). -/
abbrev Row := List (String × Value)

/-- Whitespace stripped by Python `float(...)` around the literal (ASCII
subset). -/
def stripPyWS (l : List Char) : List Char :=
  ((l.dropWhile QueryUtils.wsChar).reverse.dropWhile QueryUtils.wsChar).reverse

/-- Remainder after the maximal run `digit (digit | '_' digit)*`:
underscores are only allowed between digits, as in Python numeric
literals. -/
def udigitsRest : List Char → List Char
  | [] => []
  | [c] => if c.isDigit then [] else [c]
  | c :: d :: rest =>
    if c.isDigit then udigitsRest (d :: rest)
    else if c == '_' && d.isDigit then udigitsRest rest
    else c :: d :: rest

/-- Consume a digit run (with embedded underscores); fails unless the list
starts with a digit. -/
def parseUDigits (l : List Char) : Option (List Char) :=
  match l with
  | c :: _ => if c.isDigit then some (udigitsRest l) else none
  | [] => none

/-- Consume the mantissa of a float literal: `digits [. [digits]]` or
`. digits`. -/
def parseMantissa (l : List Char) : Option (List Char) :=
  match parseUDigits l with
  | some r =>
    match r with
    | '.' :: r2 =>
      match parseUDigits r2 with
      | some r3 => some r3
      | none => some r2
    | _ => some r
  | none =>
    match l with
    | '.' :: r2 => parseUDigits r2
    | _ => none

/-- Consume an exponent `(e|E) [+|-] digits`; fails if `l` does not start
with an exponent marker. -/
def parseExp (l : List Char) : Option (List Char) :=
  match l with
  | c :: r =>
    if c == 'e' || c == 'E' then
      match r with
      | s :: r3 => if s == '+' || s == '-' then parseUDigits r3 else parseUDigits r
      | [] => none
    else none
  | [] => none

/-- Case-insensitive whole-list match against a keyword. -/
def ciMatch (w : String) (l : List Char) : Bool :=
  l.map Char.toLower == w.data

/-- A float literal body after the optional sign: `inf`, `infinity`,
`nan` (case-insensitive), or mantissa with optional exponent. -/
def isFloatBody (l : List Char) : Bool :=
  ciMatch "inf" l || ciMatch "infinity" l || ciMatch "nan" l ||
    (match parseMantissa l with
     | some [] => true
     | some r => (match parseExp r with | some [] => true | _ => false)
     | none => false)

/-- `_is_numeric` (lines 538-544).  Modelled from CPython's `float(...)`
literal grammar (ASCII subset): optional surrounding whitespace, optional
sign, then `inf`/`infinity`/`nan` or a decimal with optional fraction,
exponent, and underscores between digits. -/
def isNumericStr (s : String) : Bool :=
  match stripPyWS s.data with
  | [] => false
  | c :: rest => if c == '+' || c == '-' then isFloatBody rest else isFloatBody (c :: rest)

/-- Exactly `n` decimal digits, returning the remainder. -/
def takeDigitsExact : Nat → List Char → Option (List Char)
  | 0, l => some l
  | _ + 1, [] => none
  | n + 1, c :: r => if c.isDigit then takeDigitsExact n r else none

/-- `re.match` of a pattern `\d{a}<sep>\d{b}<sep2>\d{c}` against a prefix
of `l` (a trailing remainder is allowed, as with `re.match`). -/
def dateShape (a : Nat) (sep : Char) (b : Nat) (sep2 : Char) (c : Nat) (l : List Char) : Bool :=
  match takeDigitsExact a l with
  | some (s :: r) =>
    s == sep &&
      (match takeDigitsExact b r with
       | some (s2 :: r2) => s2 == sep2 && (takeDigitsExact c r2).isSome
       | _ => false)
  | _ => false

/-- `_is_date_string` (lines 520-536): a string starting like
`YYYY-MM-DD`, `MM/DD/YYYY`, or `MM-DD-YYYY`; non-strings never match. -/
def isDateString : Value → Bool
  | .str s =>
    dateShape 4 '-' 2 '-' 2 s.data || dateShape 2 '/' 2 '/' 4 s.data
      || dateShape 2 '-' 2 '-' 4 s.data
  | _ => false

/-- `isinstance(value, (int, float)) or (isinstance(value, str) and
self._is_numeric(value))` (lines 513-514). -/
def isNumericValue : Value → Bool
  | .int _ => true
  | .float => true
  | .str s => isNumericStr s
  | .other => false

/-- `_infer_column_type` (lines 504-518): name containing
date/time/year, or a date-looking string value → `date`; else numeric
value or numeric-looking string → `numeric`; else `categorical`. -/
def inferColumnType (value : Value) (name : String) : String :=
  let nl := (pyLower name)
  if strContains nl "date" || strContains nl "time" || strContains nl "year"
      || isDateString value then "date"
  else if isNumericValue value then "numeric"
  else "categorical"

/-- The `config` dictionaries built by `_generate_line_chart_config` /
`_generate_bar_chart_config` (x/y axes), `_generate_pie_chart_config`
(label/value columns) and `_generate_table_config` (column list). -/
inductive ChartConfig where
  | axes (x_axis y_axis : Option String) (data : List Row)
  | labels (label_column value_column : Option String) (data : List Row)
  | table (columns : List String) (data : List Row)
deriving DecidableEq, Repr

/-- The `{'type': ..., 'config': ...}` dictionary returned by
`recommend_visualization`. -/
structure Recommendation where
  type : String
  config : ChartConfig
deriving DecidableEq, Repr

/-- `recommend_visualization` (lines 423-462) together with
`_analyze_data_structure` (lines 464-502) and the config generators
(lines 546-602).  The argument is `Option`-typed to capture a `None`
`results` argument; `if not results or len(results) == 0` rejects both
`None` and the empty list.  The structure analysis classifies the columns
of the first row in dictionary order; the `elif` chain makes the
categorical list collect exactly the columns typed neither `date` nor
`numeric`. -/
def recommend_visualization (results : Option (List Row)) (query : String) :
    Option Recommendation :=
  match results with
  | Option.none => Option.none
  | Option.some rows =>
    match rows with
    | [] => Option.none
    | firstRow :: _ =>
      let cols := firstRow.map (fun nv => (nv.1, inferColumnType nv.2 nv.1))
      let dateColumns := (cols.filter (fun c => c.2 == "date")).map (·.1)
      let numericColumns := (cols.filter (fun c => c.2 == "numeric")).map (·.1)
      let categoricalColumns :=
        (cols.filter (fun c => c.2 != "date" && c.2 != "numeric")).map (·.1)
      let ql := (pyLower query)
      if !dateColumns.isEmpty && !numericColumns.isEmpty
          && (strContains ql "over time" || strContains ql "trend") then
        some ⟨"line-chart", .axes dateColumns.head? numericColumns.head? rows⟩
      else if !categoricalColumns.isEmpty && !numericColumns.isEmpty
          && (strContains ql "compare" || strContains ql "by category") then
        some ⟨"bar-chart", .axes categoricalColumns.head? numericColumns.head? rows⟩
      else if !categoricalColumns.isEmpty && !numericColumns.isEmpty
          && (strContains ql "distribution" || strContains ql "percentage") then
        some ⟨"pie-chart", .labels categoricalColumns.head? numericColumns.head? rows⟩
      else
        some ⟨"table", .table (firstRow.map (·.1)) rows⟩

/-- Spec-side: the first row has a column classified as `ty`. -/
def hasColOfType (ty : String) (r : Row) : Bool :=
  r.any (fun nv => inferColumnType nv.2 nv.1 == ty)

/-- Spec-side: the first column of classification `ty`, in the first
row's column order. -/
def firstColOfType (ty : String) (r : Row) : Option String :=
  (r.find? (fun nv => inferColumnType nv.2 nv.1 == ty)).map (·.1)

/-- Spec-side guard of the line-chart branch. -/
def lineApplies (r : Row) (q : String) : Bool :=
  hasColOfType "date" r && hasColOfType "numeric" r
    && (strContains (pyLower q) "over time" || strContains (pyLower q) "trend")

/-- Spec-side guard of the bar-chart branch. -/
def barApplies (r : Row) (q : String) : Bool :=
  hasColOfType "categorical" r && hasColOfType "numeric" r
    && (strContains (pyLower q) "compare" || strContains (pyLower q) "by category")

/-- Spec-side guard of the pie-chart branch. -/
def pieApplies (r : Row) (q : String) : Bool :=
  hasColOfType "categorical" r && hasColOfType "numeric" r
    && (strContains (pyLower q) "distribution" || strContains (pyLower q) "percentage")

end DataAgent

/-!
## Spec-side definitions

Formulations used by the claim statements, independent of the embedded
implementations where possible.
-/

/-- Running maximum of the keys, seen from the left (the value Python's
`max` tracks while scanning `best :: l`). -/
def keyFoldMax {α : Type} (key : α → Int) (best : α) (l : List α) : Int :=
  l.foldl (fun m x => max m (key x)) (key best)

/-- The largest column-mention score over a schema (0 for an empty
schema). -/
def maxColScore (q : String) (s : Schema) : Nat :=
  (s.map (fun e => QueryUtils.colScore (pyLower q) e.2)).foldr max 0

/-- Insert four spaces after every newline of `l` (the indentation
difference between the module-level and the class-based SQL templates). -/
def indentChars : List Char → List Char
  | [] => []
  | c :: t =>
    if c = '\n' then '\n' :: ' ' :: ' ' :: ' ' :: ' ' :: indentChars t
    else c :: indentChars t

/-- String form of `indentChars`. -/
def indent4 (s : String) : String := String.mk (indentChars s.data)

/-- The string contains no newline (true of ordinary SQL identifiers). -/
def noNL (s : String) : Prop := '\n' ∉ s.data

instance (s : String) : Decidable (noNL s) := by unfold noNL; infer_instance

/-- Every table name and column name of the schema is newline-free. -/
def schemaNoNL (s : Schema) : Prop :=
  ∀ e ∈ s, noNL e.1 ∧ ∀ c ∈ e.2.columns, noNL c.name

instance (s : Schema) : Decidable (schemaNoNL s) := by
  unfold schemaNoNL; infer_instance

/-- Two generator results agree up to the four extra spaces of indentation
the class-based copy puts after each newline of the SQL text: failures
carry the same message; successes have identical visualization type,
explanation, table and axes, and the second SQL text is the first one
re-indented. -/
def resultAgree : QueryResult → QueryResult → Prop
  | .failure m₁, .failure m₂ => m₁ = m₂
  | .success sql₁ v₁ e₁ t₁ x₁ y₁, .success sql₂ v₂ e₂ t₂ x₂ y₂ =>
    sql₂ = indent4 sql₁ ∧ v₁ = v₂ ∧ e₁ = e₂ ∧ t₁ = t₂ ∧ x₁ = x₂ ∧ y₁ = y₂
  | _, _ => False

/-- Lift of `resultAgree` to generator call outcomes. -/
def pyAgree : PyValue → PyValue → Prop
  | .result r₁, .result r₂ => resultAgree r₁ r₂
  | x, y => x = y

/-!
## Theorems
-/

/-- C10: for a `None` results argument or an empty result list the
Visualization Selector returns no recommendation at all (`None`), never a
`{type, config}` value with the table default. -/
theorem C10_empty_results_no_recommendation (q : String) :
    DataAgent.recommend_visualization Option.none q = Option.none
      ∧ DataAgent.recommend_visualization (some []) q = Option.none :=
  ⟨rfl, rfl⟩

/-- C1: `nlp_to_sql` tests the five keyword sets in the fixed order TREND,
DISTRIBUTION, TOP_N, COMPARISON, AGGREGATE (case-insensitive substring
matching over the lower-cased query) and dispatches to the first matching
category's generator, falling back to GENERIC when none matches. -/
theorem C1_intent_priority_order (q : String) (s : Schema) :
    QueryUtils.nlp_to_sql q s = QueryUtils.dispatchIntent (QueryUtils.classifyIntent q) q s
    ∧ (containsAnyKw (pyLower q) QueryUtils.trendKeywords = true →
        QueryUtils.classifyIntent q = Intent.trend)
    ∧ (containsAnyKw (pyLower q) QueryUtils.trendKeywords = false →
        containsAnyKw (pyLower q) QueryUtils.distributionKeywords = true →
        QueryUtils.classifyIntent q = Intent.distribution)
    ∧ (containsAnyKw (pyLower q) QueryUtils.trendKeywords = false →
        containsAnyKw (pyLower q) QueryUtils.distributionKeywords = false →
        containsAnyKw (pyLower q) QueryUtils.topKeywords = true →
        QueryUtils.classifyIntent q = Intent.topN)
    ∧ (containsAnyKw (pyLower q) QueryUtils.trendKeywords = false →
        containsAnyKw (pyLower q) QueryUtils.distributionKeywords = false →
        containsAnyKw (pyLower q) QueryUtils.topKeywords = false →
        containsAnyKw (pyLower q) QueryUtils.comparisonKeywords = true →
        QueryUtils.classifyIntent q = Intent.comparison)
    ∧ (containsAnyKw (pyLower q) QueryUtils.trendKeywords = false →
        containsAnyKw (pyLower q) QueryUtils.distributionKeywords = false →
        containsAnyKw (pyLower q) QueryUtils.topKeywords = false →
        containsAnyKw (pyLower q) QueryUtils.comparisonKeywords = false →
        containsAnyKw (pyLower q) QueryUtils.aggregateKeywords = true →
        QueryUtils.classifyIntent q = Intent.aggregate)
    ∧ (containsAnyKw (pyLower q) QueryUtils.trendKeywords = false →
        containsAnyKw (pyLower q) QueryUtils.distributionKeywords = false →
        containsAnyKw (pyLower q) QueryUtils.topKeywords = false →
        containsAnyKw (pyLower q) QueryUtils.comparisonKeywords = false →
        containsAnyKw (pyLower q) QueryUtils.aggregateKeywords = false →
        QueryUtils.classifyIntent q = Intent.generic) := by
  refine ⟨?_, ?_, ?_, ?_, ?_, ?_, ?_⟩
  · by_cases h1 : containsAnyKw (pyLower q) QueryUtils.trendKeywords <;>
    by_cases h2 : containsAnyKw (pyLower q) QueryUtils.distributionKeywords <;>
    by_cases h3 : containsAnyKw (pyLower q) QueryUtils.topKeywords <;>
    by_cases h4 : containsAnyKw (pyLower q) QueryUtils.comparisonKeywords <;>
    by_cases h5 : containsAnyKw (pyLower q) QueryUtils.aggregateKeywords <;>
    simp [QueryUtils.nlp_to_sql, QueryUtils.classifyIntent, QueryUtils.dispatchIntent,
      h1, h2, h3, h4, h5]
  · intro h1
    simp [QueryUtils.classifyIntent, h1]
  · intro h1 h2
    simp [QueryUtils.classifyIntent, h1, h2]
  · intro h1 h2 h3
    simp [QueryUtils.classifyIntent, h1, h2, h3]
  · intro h1 h2 h3 h4
    simp [QueryUtils.classifyIntent, h1, h2, h3, h4]
  · intro h1 h2 h3 h4 h5
    simp [QueryUtils.classifyIntent, h1, h2, h3, h4, h5]
  · intro h1 h2 h3 h4 h5
    simp [QueryUtils.classifyIntent, h1, h2, h3, h4, h5]

/-- C1 witness: "show top products trend" contains both a TOP_N keyword
("top") and a TREND keyword ("trend") and classifies as TREND. -/
theorem C1_intent_priority_order_witness :
    strContains "show top products trend" "top" = true
    ∧ strContains "show top products trend" "trend" = true
    ∧ QueryUtils.classifyIntent "show top products trend" = Intent.trend :=
  ⟨by decide, by decide,
    (C1_intent_priority_order "show top products trend" []).2.1 (by decide)⟩

/-- C2 counterexample: the claim says a text containing "first" with no
adjacent number yields 10, but the default-10 fallback list of
`extract_limit` (line 170) is `['top', 'highest', 'best']`, so
"first customers" yields NONE, not 10. -/
theorem C2_limit_first_counterexample :
    QueryUtils.extract_limit "first customers" = Option.none
    ∧ QueryUtils.extract_limit "first customers" ≠ some 10
    ∧ strContains "first customers" "first" = true := by
  refine ⟨by decide, by decide, by decide⟩

/-- C2 amended: limit extraction returns the first integer captured by the
pattern `<superlative> <N>` / `<N> <superlative>` with superlative in
{top, first, highest, best}; with no numeric match it returns 10 only when
one of {top, highest, best} occurs in the text (NOT "first"), and NONE
otherwise.  "top 5 customers by orders" yields 5, "top customers" yields
10, "list customers" yields NONE, and "first" with no adjacent number
contributes nothing. -/
theorem C2_limit_extraction_amended (q : String) :
    (∀ n, QueryUtils.regexSearchLimit (pyLower q).data = some n →
      QueryUtils.extract_limit q = some n)
    ∧ (QueryUtils.regexSearchLimit (pyLower q).data = Option.none →
        QueryUtils.extract_limit q =
          if containsAnyKw (pyLower q) ["top", "highest", "best"] then some 10
          else Option.none)
    ∧ QueryUtils.extract_limit "top 5 customers by orders" = some 5
    ∧ QueryUtils.extract_limit "top customers" = some 10
    ∧ QueryUtils.extract_limit "list customers" = Option.none
    ∧ QueryUtils.extract_limit "first 7 products" = some 7 := by
  refine ⟨?_, ?_, by decide, by decide, by decide, by decide⟩
  · intro n h
    simp only [QueryUtils.extract_limit]
    rw [h]
  · intro h
    simp only [QueryUtils.extract_limit]
    rw [h]

/-- C2 witness: on "highest 3 scores" the regex captures 3 and the limit is
3. -/
theorem C2_limit_extraction_amended_witness :
    QueryUtils.extract_limit "highest 3 scores" = some 3 :=
  (C2_limit_extraction_amended "highest 3 scores").1 3 (by decide)

/-- A query classifies as TREND exactly when the trend keyword set
matches. -/
theorem classifyIntent_trend_iff (q : String) :
    QueryUtils.classifyIntent q = Intent.trend ↔
      containsAnyKw (pyLower q) QueryUtils.trendKeywords = true := by
  by_cases h1 : containsAnyKw (pyLower q) QueryUtils.trendKeywords <;>
  by_cases h2 : containsAnyKw (pyLower q) QueryUtils.distributionKeywords <;>
  by_cases h3 : containsAnyKw (pyLower q) QueryUtils.topKeywords <;>
  by_cases h4 : containsAnyKw (pyLower q) QueryUtils.comparisonKeywords <;>
  by_cases h5 : containsAnyKw (pyLower q) QueryUtils.aggregateKeywords <;>
  simp [QueryUtils.classifyIntent, h1, h2, h3, h4, h5]

/-- A query classifies as DISTRIBUTION exactly when the trend set fails
and the distribution set matches. -/
theorem classifyIntent_distribution_iff (q : String) :
    QueryUtils.classifyIntent q = Intent.distribution ↔
      (containsAnyKw (pyLower q) QueryUtils.trendKeywords = false
        ∧ containsAnyKw (pyLower q) QueryUtils.distributionKeywords = true) := by
  by_cases h1 : containsAnyKw (pyLower q) QueryUtils.trendKeywords <;>
  by_cases h2 : containsAnyKw (pyLower q) QueryUtils.distributionKeywords <;>
  by_cases h3 : containsAnyKw (pyLower q) QueryUtils.topKeywords <;>
  by_cases h4 : containsAnyKw (pyLower q) QueryUtils.comparisonKeywords <;>
  by_cases h5 : containsAnyKw (pyLower q) QueryUtils.aggregateKeywords <;>
  simp [QueryUtils.classifyIntent, h1, h2, h3, h4, h5]

/-- C6: a TREND query whose resolved table has no column containing any
time keyword fails with success=false and the `RequiredColumnMissing`
message; the `failure` shape carries no SQL, and in the TREND-classified
pipeline the failure is returned as a value, never an exception. -/
theorem C6_trend_missing_time_column_fails (q : String) (s : Schema)
    (tname : String) (tinfo : TableInfo)
    (hres : QueryUtils.identify_relevant_table q s = some (tname, tinfo))
    (hname : tname ≠ "")
    (htime : QueryUtils.identify_time_column tinfo = Option.none) :
    QueryUtils.generate_trend_query q s =
      QueryResult.failure "Could not identify a time-based column for trend analysis."
    ∧ (QueryUtils.classifyIntent q = Intent.trend →
        QueryUtils.nlp_to_sql q s =
          PyValue.result
            (QueryResult.failure "Could not identify a time-based column for trend analysis.")) := by
  have h1 : QueryUtils.generate_trend_query q s =
      QueryResult.failure "Could not identify a time-based column for trend analysis." := by
    simp [QueryUtils.generate_trend_query, hres, htime, hname]
  refine ⟨h1, fun hc => ?_⟩
  have hflag := (classifyIntent_trend_iff q).mp hc
  simp [QueryUtils.nlp_to_sql, hflag, h1]

/-- C6 witness: table `events(kind TEXT)` has no time-keyword column, so a
trend query over it fails with the required-column message. -/
theorem C6_trend_missing_time_column_fails_witness :
    QueryUtils.generate_trend_query "events trend"
        [("events", ⟨[⟨"kind", "TEXT", false⟩], 3⟩)] =
      QueryResult.failure "Could not identify a time-based column for trend analysis."
    ∧ QueryUtils.nlp_to_sql "events trend" [("events", ⟨[⟨"kind", "TEXT", false⟩], 3⟩)] =
        PyValue.result
          (QueryResult.failure "Could not identify a time-based column for trend analysis.") := by
  have h := C6_trend_missing_time_column_fails "events trend"
    [("events", ⟨[⟨"kind", "TEXT", false⟩], 3⟩)] "events" ⟨[⟨"kind", "TEXT", false⟩], 3⟩
    (by decide) (by decide) (by decide)
  exact ⟨h.1, h.2 (by decide)⟩

/-- C7: for a resolved table and category column, the DISTRIBUTION builder
emits `COUNT(*)` grouped by the category column, filtered to non-NULL
category values, ordered descending by count; the visualization is "pie"
exactly when the query text contains "percentage" and "bar" otherwise,
also through the DISTRIBUTION-classified pipeline. -/
theorem C7_distribution_query_shape (q : String) (s : Schema) (tname : String)
    (tinfo : TableInfo) (cat : String)
    (hres : QueryUtils.identify_relevant_table q s = some (tname, tinfo))
    (hname : tname ≠ "")
    (hcat : QueryUtils.identify_category_column tinfo = some cat)
    (hcatname : cat ≠ "") :
    QueryUtils.generate_distribution_query q s =
      QueryResult.success
        ("\n    SELECT " ++ cat ++ ", COUNT(*) as count \n    FROM " ++ tname
          ++ " \n    WHERE " ++ cat ++ " IS NOT NULL\n    GROUP BY " ++ cat
          ++ " \n    ORDER BY count DESC;\n    ")
        (if strContains (pyLower q) "percentage" then "pie" else "bar")
        ("Analyzing distribution of " ++ cat ++ " in " ++ tname)
        tname cat "count"
    ∧ (QueryUtils.classifyIntent q = Intent.distribution →
        QueryUtils.nlp_to_sql q s =
          PyValue.result
            (QueryResult.success
              ("\n    SELECT " ++ cat ++ ", COUNT(*) as count \n    FROM " ++ tname
                ++ " \n    WHERE " ++ cat ++ " IS NOT NULL\n    GROUP BY " ++ cat
                ++ " \n    ORDER BY count DESC;\n    ")
              (if strContains (pyLower q) "percentage" then "pie" else "bar")
              ("Analyzing distribution of " ++ cat ++ " in " ++ tname)
              tname cat "count")) := by
  have h1 : QueryUtils.generate_distribution_query q s =
      QueryResult.success
        ("\n    SELECT " ++ cat ++ ", COUNT(*) as count \n    FROM " ++ tname
          ++ " \n    WHERE " ++ cat ++ " IS NOT NULL\n    GROUP BY " ++ cat
          ++ " \n    ORDER BY count DESC;\n    ")
        (if strContains (pyLower q) "percentage" then "pie" else "bar")
        ("Analyzing distribution of " ++ cat ++ " in " ++ tname)
        tname cat "count" := by
    simp [QueryUtils.generate_distribution_query, hres, hcat, hname, hcatname]
  refine ⟨h1, fun hc => ?_⟩
  obtain ⟨hf1, hf2⟩ := (classifyIntent_distribution_iff q).mp hc
  simp [QueryUtils.nlp_to_sql, hf1, hf2, h1]

/-- C7 witness: "what's the distribution of products by category" over
`products(id, category, name)` yields the bar chart (not pie), grouped by
`category`. -/
theorem C7_distribution_query_shape_witness :
    QueryUtils.generate_distribution_query
        "what\x27s the distribution of products by category"
        [("products", ⟨[⟨"id", "INTEGER", true⟩, ⟨"category", "TEXT", false⟩,
          ⟨"name", "TEXT", false⟩], 10⟩)] =
      QueryResult.success
        "\n    SELECT category, COUNT(*) as count \n    FROM products \n    WHERE category IS NOT NULL\n    GROUP BY category \n    ORDER BY count DESC;\n    "
        "bar" "Analyzing distribution of category in products"
        "products" "category" "count" := by
  have h := C7_distribution_query_shape
    "what\x27s the distribution of products by category"
    [("products", ⟨[⟨"id", "INTEGER", true⟩, ⟨"category", "TEXT", false⟩,
      ⟨"name", "TEXT", false⟩], 10⟩)]
    "products"
    ⟨[⟨"id", "INTEGER", true⟩, ⟨"category", "TEXT", false⟩, ⟨"name", "TEXT", false⟩], 10⟩
    "category" (by decide) (by decide) (by decide) (by decide)
  exact h.1.trans (by decide)

/-- C3 counterexample: the column name "month" matches the time-keyword
list used for column selection, yet the generated SQL groups on the raw
column value — no `strftime` truncation appears — because the truncation
check (line 203) only looks for `time`, `date`, `_at`. -/
theorem C3_trend_truncation_counterexample :
    containsAnyKw (pyLower "month") QueryUtils.timeKeywords = true
    ∧ QueryUtils.generate_trend_query "sales trend"
        [("sales", ⟨[⟨"month", "TEXT", false⟩], 10⟩)] =
      QueryResult.success
        "\n    SELECT month as time_period, COUNT(*) as value \n    FROM sales \n    WHERE month IS NOT NULL\n    GROUP BY time_period \n    ORDER BY time_period;\n    "
        "line" "Analyzing count of * over time from sales" "sales" "time_period" "value"
    ∧ strContains
        "\n    SELECT month as time_period, COUNT(*) as value \n    FROM sales \n    WHERE month IS NOT NULL\n    GROUP BY time_period \n    ORDER BY time_period;\n    "
        "strftime" = false :=
  ⟨by decide, by decide, by decide⟩

/-- C3 amended: for a resolved table and time column the TREND builder
always succeeds with a line chart grouped and ordered ascending by the
`time_period` bucket (axes x=`time_period`, y=`value`); the year-month
`strftime` truncation is applied exactly when the lower-cased time-column
name contains one of `time`, `date`, `_at` — not the full time-keyword
list used to select the column. -/
theorem C3_trend_query_shape_amended (q : String) (s : Schema) (tname : String)
    (tinfo : TableInfo) (timeCol : String)
    (hres : QueryUtils.identify_relevant_table q s = some (tname, tinfo))
    (hname : tname ≠ "")
    (htime : QueryUtils.identify_time_column tinfo = some timeCol)
    (htname : timeCol ≠ "") :
    QueryUtils.generate_trend_query q s =
      QueryResult.success
        ("\n    SELECT "
          ++ (if containsAnyKw (pyLower timeCol) ["time", "date", "_at"] then
                "strftime(\x27%Y-%m\x27, " ++ timeCol ++ ")"
              else timeCol)
          ++ " as time_period, " ++ QueryUtils.identify_aggregation_function q ++ "("
          ++ QueryUtils.identify_numeric_column tinfo ++ ") as value \n    FROM " ++ tname
          ++ " \n    WHERE " ++ timeCol
          ++ " IS NOT NULL\n    GROUP BY time_period \n    ORDER BY time_period;\n    ")
        "line"
        ("Analyzing " ++ pyLower (QueryUtils.identify_aggregation_function q) ++ " of "
          ++ QueryUtils.identify_numeric_column tinfo ++ " over time from " ++ tname)
        tname "time_period" "value" := by
  simp [QueryUtils.generate_trend_query, hres, htime, hname, htname]

/-- C3 witness (= spec end-to-end example 1): `sales(id, date, amount,
product_id)` with "show total sales over time" buckets `date` to
year-month and sums `amount`. -/
theorem C3_trend_query_shape_amended_witness :
    QueryUtils.generate_trend_query "show total sales over time"
        [("sales", ⟨[⟨"id", "INTEGER", true⟩, ⟨"date", "TEXT", false⟩,
          ⟨"amount", "DECIMAL", false⟩, ⟨"product_id", "INTEGER", false⟩], 10⟩)] =
      QueryResult.success
        "\n    SELECT strftime(\x27%Y-%m\x27, date) as time_period, SUM(amount) as value \n    FROM sales \n    WHERE date IS NOT NULL\n    GROUP BY time_period \n    ORDER BY time_period;\n    "
        "line" "Analyzing sum of amount over time from sales"
        "sales" "time_period" "value" := by
  have h := C3_trend_query_shape_amended "show total sales over time"
    [("sales", ⟨[⟨"id", "INTEGER", true⟩, ⟨"date", "TEXT", false⟩,
      ⟨"amount", "DECIMAL", false⟩, ⟨"product_id", "INTEGER", false⟩], 10⟩)]
    "sales"
    ⟨[⟨"id", "INTEGER", true⟩, ⟨"date", "TEXT", false⟩,
      ⟨"amount", "DECIMAL", false⟩, ⟨"product_id", "INTEGER", false⟩], 10⟩
    "date" (by decide) (by decide) (by decide) (by decide)
  exact h.trans (by decide)

/-- `find?` on a cons whose head satisfies the predicate. -/
theorem find?_cons_pos {α : Type} (p : α → Bool) (a : α) (l : List α) (h : p a = true) :
    (a :: l).find? p = some a := by
  simp [List.find?, h]

/-- `find?` on a cons whose head fails the predicate. -/
theorem find?_cons_neg {α : Type} (p : α → Bool) (a : α) (l : List α) (h : p a = false) :
    (a :: l).find? p = l.find? p := by
  simp [List.find?, h]

/-- Scanning one element updates the running maximum. -/
theorem keyFoldMax_cons {α : Type} (key : α → Int) (best x : α) (xs : List α) :
    keyFoldMax key best (x :: xs) =
      keyFoldMax key (if key best < key x then x else best) xs := by
  unfold keyFoldMax
  simp only [List.foldl_cons]
  congr 1
  by_cases h : key best < key x
  · simp [h, max_eq_right (le_of_lt h)]
  · simp [h, max_eq_left (not_lt.mp h)]

/-- The seed's key is below the running maximum. -/
theorem le_keyFoldMax {α : Type} (key : α → Int) (best : α) (l : List α) :
    key best ≤ keyFoldMax key best l := by
  induction l generalizing best with
  | nil => simp [keyFoldMax]
  | cons x xs ih =>
    rw [keyFoldMax_cons]
    refine le_trans ?_ (ih _)
    by_cases h : key best < key x
    · simp only [if_pos h]; exact le_of_lt h
    · simp only [if_neg h]; exact le_refl _

/-- Every scanned element's key is below the running maximum. -/
theorem mem_le_keyFoldMax {α : Type} (key : α → Int) {a best : α} {l : List α}
    (h : a ∈ best :: l) : key a ≤ keyFoldMax key best l := by
  induction l generalizing best with
  | nil =>
    rw [List.mem_singleton] at h
    subst h; simp [keyFoldMax]
  | cons x xs ih =>
    rw [keyFoldMax_cons]
    rcases List.mem_cons.mp h with rfl | h2
    · refine le_trans ?_ (le_keyFoldMax key _ xs)
      by_cases hb : key a < key x
      · simp only [if_pos hb]; exact le_of_lt hb
      · simp only [if_neg hb]; exact le_refl _
    · rcases List.mem_cons.mp h2 with rfl | h3
      · refine le_trans ?_ (le_keyFoldMax key _ xs)
        by_cases hb : key best < key a
        · simp only [if_pos hb]; exact le_refl _
        · simp only [if_neg hb]; exact not_lt.mp hb
      · exact ih (List.mem_cons_of_mem _ h3)

/-- Python's `max` returns the first element whose key equals the overall
maximum (strictly-greater replacement keeps the earliest maximum). -/
theorem pyMax1_eq_find {α : Type} (key : α → Int) (best : α) (l : List α) :
    (best :: l).find? (fun x => key x == keyFoldMax key best l) =
      some (pyMax1 key best l) := by
  induction l generalizing best with
  | nil => simp [pyMax1, keyFoldMax, List.find?]
  | cons x xs ih =>
    rw [keyFoldMax_cons]
    by_cases hb : key best < key x
    · have hbx : (if key best < key x then x else best) = x := if_pos hb
      have hpm : pyMax1 key best (x :: xs) = pyMax1 key x xs := by
        simp [pyMax1, hb]
      rw [hbx, hpm]
      have hbest_ne : (key best == keyFoldMax key x xs) = false := by
        have hlt : key best < keyFoldMax key x xs :=
          lt_of_lt_of_le hb (le_keyFoldMax key x xs)
        simp only [beq_eq_false_iff_ne, ne_eq]
        omega
      rw [find?_cons_neg (fun y => key y == keyFoldMax key x xs) best (x :: xs) hbest_ne]
      exact ih x
    · have hbx : (if key best < key x then x else best) = best := if_neg hb
      have hpm : pyMax1 key best (x :: xs) = pyMax1 key best xs := by
        simp [pyMax1, hb]
      rw [hbx, hpm]
      have hxb : key x ≤ key best := not_lt.mp hb
      by_cases hbm : (key best == keyFoldMax key best xs) = true
      · rw [find?_cons_pos (fun y => key y == keyFoldMax key best xs) best (x :: xs) hbm]
        have hI := ih best
        rw [find?_cons_pos (fun y => key y == keyFoldMax key best xs) best xs hbm] at hI
        exact hI
      · have hbm2 : (key best == keyFoldMax key best xs) = false :=
          Bool.eq_false_iff.mpr hbm
        have hxm : (key x == keyFoldMax key best xs) = false := by
          have hble : key best ≤ keyFoldMax key best xs := le_keyFoldMax key best xs
          have hbm3 : key best ≠ keyFoldMax key best xs := by
            simpa [beq_iff_eq] using hbm
          simp only [beq_eq_false_iff_ne, ne_eq]
          omega
        rw [find?_cons_neg (fun y => key y == keyFoldMax key best xs) best (x :: xs) hbm2,
          find?_cons_neg (fun y => key y == keyFoldMax key best xs) x xs hxm]
        have hI := ih best
        rw [find?_cons_neg (fun y => key y == keyFoldMax key best xs) best xs hbm2] at hI
        exact hI

/-- Python's `max` picks an element of the scanned list. -/
theorem pyMax1_mem {α : Type} (key : α → Int) (best : α) (l : List α) :
    pyMax1 key best l ∈ best :: l :=
  List.mem_of_find?_eq_some (pyMax1_eq_find key best l)

/-- The key of Python's `max` is the running maximum. -/
theorem pyMax1_key {α : Type} (key : α → Int) (best : α) (l : List α) :
    key (pyMax1 key best l) = keyFoldMax key best l := by
  have h := List.find?_some (pyMax1_eq_find key best l)
  simpa [beq_iff_eq] using h

/-- Members are below the `foldr max 0` of a `Nat` list. -/
theorem mem_le_foldrMax {l : List Nat} {x : Nat} (h : x ∈ l) : x ≤ l.foldr max 0 := by
  induction l with
  | nil => cases h
  | cons a t ih =>
    rcases List.mem_cons.mp h with rfl | h2
    · exact le_max_left _ _
    · exact le_trans (ih h2) (le_max_right _ _)

/-- The `foldr max 0` of a `Nat` list is 0 or attained by a member. -/
theorem foldrMax_attained (l : List Nat) : l.foldr max 0 = 0 ∨ l.foldr max 0 ∈ l := by
  induction l with
  | nil => left; rfl
  | cons a t ih =>
    simp only [List.foldr_cons]
    rcases le_total (t.foldr max 0) a with hle | hle
    · right; rw [max_eq_left hle]; exact List.mem_cons_self a t
    · rw [max_eq_right hle]
      rcases ih with h0 | hmem
      · left; exact h0
      · right; exact List.mem_cons_of_mem a hmem

/-- The spec-side maximum column-mention score coincides with the running
maximum Python's `max` computes over the schema. -/
theorem maxColScore_eq_keyFoldMax (q : String) (a : String × TableInfo)
    (rest : List (String × TableInfo)) :
    (maxColScore q (a :: rest) : Int)
      = keyFoldMax (fun e => (QueryUtils.colScore (pyLower q) e.2 : Int)) a rest := by
  apply le_antisymm
  · rcases foldrMax_attained
        ((a :: rest).map (fun e => QueryUtils.colScore (pyLower q) e.2)) with h0 | hmem
    · have hz : maxColScore q (a :: rest) = 0 := h0
      rw [hz]
      have h1 : (0 : Int) ≤ (QueryUtils.colScore (pyLower q) a.2 : Int) :=
        Int.ofNat_nonneg _
      exact le_trans h1 (le_keyFoldMax (fun e => (QueryUtils.colScore (pyLower q) e.2 : Int)) a rest)
    · obtain ⟨e, hemem, heq⟩ := List.mem_map.mp hmem
      have h2 := mem_le_keyFoldMax (fun e => (QueryUtils.colScore (pyLower q) e.2 : Int)) hemem
      have h3 : maxColScore q (a :: rest) = QueryUtils.colScore (pyLower q) e.2 := heq.symm
      rw [h3]
      exact h2
  · rw [← pyMax1_key (fun e => (QueryUtils.colScore (pyLower q) e.2 : Int)) a rest]
    have hmem := pyMax1_mem (fun e => (QueryUtils.colScore (pyLower q) e.2 : Int)) a rest
    have h2 : QueryUtils.colScore (pyLower q)
        (pyMax1 (fun e => (QueryUtils.colScore (pyLower q) e.2 : Int)) a rest).2
          ≤ maxColScore q (a :: rest) :=
      mem_le_foldrMax (List.mem_map_of_mem _ hmem)
    exact_mod_cast h2

/-- C4: table resolution evaluates three tiers in order — (1) first table
(in schema iteration order) whose normalized name is a substring of the
lower-cased query, (2) a table with the (positive) maximal column-mention
score, (3) a table with the largest `row_count` — and returns NONE for an
empty schema. -/
theorem C4_table_resolution_tiers (q : String) (s : Schema) :
    (s = [] → QueryUtils.identify_relevant_table q s = Option.none)
    ∧ (∀ e, s.find? (fun e2 => strContains (pyLower q) (pyNormName e2.1)) = some e →
        QueryUtils.identify_relevant_table q s = some e)
    ∧ (s.find? (fun e2 => strContains (pyLower q) (pyNormName e2.1)) = Option.none →
        (∃ e0 ∈ s, 0 < QueryUtils.colScore (pyLower q) e0.2) →
        ∃ e ∈ s, QueryUtils.identify_relevant_table q s = some e
          ∧ ∀ e2 ∈ s,
              QueryUtils.colScore (pyLower q) e2.2 ≤ QueryUtils.colScore (pyLower q) e.2)
    ∧ (s.find? (fun e2 => strContains (pyLower q) (pyNormName e2.1)) = Option.none →
        (∀ e0 ∈ s, QueryUtils.colScore (pyLower q) e0.2 = 0) → s ≠ [] →
        ∃ e ∈ s, QueryUtils.identify_relevant_table q s = some e
          ∧ ∀ e2 ∈ s, e2.2.row_count ≤ e.2.row_count) := by
  refine ⟨?_, ?_, ?_, ?_⟩
  · rintro rfl
    rfl
  · intro e h
    simp only [QueryUtils.identify_relevant_table]
    rw [h]
  · intro hf hpos
    obtain ⟨e0, he0mem, he0pos⟩ := hpos
    cases s with
    | nil => simp at he0mem
    | cons a rest =>
      refine ⟨pyMax1 (fun e => (QueryUtils.colScore (pyLower q) e.2 : Int)) a rest,
        pyMax1_mem _ a rest, ?_, ?_⟩
      · simp only [QueryUtils.identify_relevant_table]
        rw [hf]
        split
        · rename_i e1 he1
          exact Option.noConfusion he1
        · split
          · rfl
          · rename_i hcond
            exfalso
            apply hcond
            rw [List.any_eq_true]
            exact ⟨e0, he0mem, decide_eq_true he0pos⟩
      · intro e2 he2
        have h1 := mem_le_keyFoldMax (fun e => (QueryUtils.colScore (pyLower q) e.2 : Int)) he2
        rw [← pyMax1_key (fun e => (QueryUtils.colScore (pyLower q) e.2 : Int)) a rest] at h1
        exact Int.ofNat_le.mp h1
  · intro hf hzero hne
    cases s with
    | nil => exact absurd rfl hne
    | cons a rest =>
      refine ⟨pyMax1 (fun e => e.2.row_count) a rest, pyMax1_mem _ a rest, ?_, ?_⟩
      · simp only [QueryUtils.identify_relevant_table]
        rw [hf]
        split
        · rename_i e1 he1
          exact Option.noConfusion he1
        · split
          · rename_i hcond
            exfalso
            rw [List.any_eq_true] at hcond
            obtain ⟨e0, he0mem, he0p⟩ := hcond
            simp only [decide_eq_true_eq] at he0p
            rw [hzero e0 he0mem] at he0p
            exact Nat.lt_irrefl 0 he0p
          · rfl
      · intro e2 he2
        have h1 := mem_le_keyFoldMax (fun e : String × TableInfo => e.2.row_count) he2
        rw [← pyMax1_key (fun e : String × TableInfo => e.2.row_count) a rest] at h1
        exact h1

/-- C4 witness: "show orders data" mentions the table name `orders`, so
tier 1 resolves to it. -/
theorem C4_table_resolution_tiers_witness :
    QueryUtils.identify_relevant_table "show orders data"
        [("orders", ⟨[], 5⟩), ("users", ⟨[], 9⟩)] =
      some ("orders", ⟨[], 5⟩) :=
  (C4_table_resolution_tiers "show orders data"
    [("orders", ⟨[], 5⟩), ("users", ⟨[], 9⟩)]).2.1 ("orders", ⟨[], 5⟩) (by decide)

/-- C5: when tier 1 fails and the maximal column-mention score is positive,
tier 2 returns the FIRST schema entry attaining that maximum — so of two
tables tied at the maximal score, the one earlier in schema iteration
order wins. -/
theorem C5_tier2_tie_first_wins (q : String) (s : Schema)
    (hf : s.find? (fun e2 => strContains (pyLower q) (pyNormName e2.1)) = Option.none)
    (hpos : 0 < maxColScore q s) :
    QueryUtils.identify_relevant_table q s =
      s.find? (fun e2 => QueryUtils.colScore (pyLower q) e2.2 == maxColScore q s) := by
  cases s with
  | nil => simp [maxColScore] at hpos
  | cons a rest =>
    have hatt : maxColScore q (a :: rest)
        ∈ (a :: rest).map (fun e => QueryUtils.colScore (pyLower q) e.2) := by
      rcases foldrMax_attained
          ((a :: rest).map (fun e => QueryUtils.colScore (pyLower q) e.2)) with h0 | hmem
      · exfalso
        have hz : maxColScore q (a :: rest) = 0 := h0
        rw [hz] at hpos
        exact Nat.lt_irrefl 0 hpos
      · exact hmem
    obtain ⟨e0, he0mem, he0eq⟩ := List.mem_map.mp hatt
    simp only [QueryUtils.identify_relevant_table]
    rw [hf]
    split
    · rename_i e1 he1
      exact Option.noConfusion he1
    split
    · have hfind := pyMax1_eq_find (fun e => (QueryUtils.colScore (pyLower q) e.2 : Int)) a rest
      have hpred : (fun x : String × TableInfo =>
            ((QueryUtils.colScore (pyLower q) x.2 : Int)
              == keyFoldMax (fun e => (QueryUtils.colScore (pyLower q) e.2 : Int)) a rest))
          = (fun x : String × TableInfo =>
              QueryUtils.colScore (pyLower q) x.2 == maxColScore q (a :: rest)) := by
        funext x
        rw [← maxColScore_eq_keyFoldMax]
        rw [Bool.eq_iff_iff]
        simp [beq_iff_eq]
      rw [hpred] at hfind
      exact hfind.symm
    · rename_i hcond
      exfalso
      apply hcond
      rw [List.any_eq_true]
      refine ⟨e0, he0mem, decide_eq_true ?_⟩
      have h5 : QueryUtils.colScore (pyLower q) e0.2 = maxColScore q (a :: rest) := he0eq
      rw [h5]
      exact hpos

/-- C5 witness: `alpha(price)` and `beta(cost)` both score 1 on
"price cost info"; the earlier table `alpha` is chosen. -/
theorem C5_tier2_tie_first_wins_witness :
    QueryUtils.identify_relevant_table "price cost info"
        [("alpha", ⟨[⟨"price", "INTEGER", false⟩], 1⟩),
         ("beta", ⟨[⟨"cost", "INTEGER", false⟩], 2⟩)] =
      some ("alpha", ⟨[⟨"price", "INTEGER", false⟩], 1⟩) := by
  have h := C5_tier2_tie_first_wins "price cost info"
    [("alpha", ⟨[⟨"price", "INTEGER", false⟩], 1⟩),
     ("beta", ⟨[⟨"cost", "INTEGER", false⟩], 2⟩)]
    (by decide) (by decide)
  exact h.trans (by decide)

/-- The head of the per-type filtered name list is the first column of
that classification, in first-row column order. -/
theorem filterType_head_eq_find (ty : String) (r : DataAgent.Row) :
    (((r.map (fun nv => (nv.1, DataAgent.inferColumnType nv.2 nv.1))).filter
        (fun c => c.2 == ty)).map (fun c => c.1)).head? = DataAgent.firstColOfType ty r := by
  induction r with
  | nil => rfl
  | cons nv t ih =>
    by_cases h : (DataAgent.inferColumnType nv.2 nv.1 == ty) = true
    · simp only [List.map_cons, List.filter_cons, if_pos h, DataAgent.firstColOfType]
      rw [find?_cons_pos (fun nv2 => DataAgent.inferColumnType nv2.2 nv2.1 == ty) nv t h]
      rfl
    · have h2 : (DataAgent.inferColumnType nv.2 nv.1 == ty) = false :=
        Bool.eq_false_iff.mpr h
      simp only [List.map_cons, List.filter_cons, if_neg h, DataAgent.firstColOfType]
      rw [find?_cons_neg (fun nv2 => DataAgent.inferColumnType nv2.2 nv2.1 == ty) nv t h2]
      exact ih

/-- The per-type filtered name list is empty exactly when no column has
that classification. -/
theorem filterType_isEmpty_eq_any (ty : String) (r : DataAgent.Row) :
    (((r.map (fun nv => (nv.1, DataAgent.inferColumnType nv.2 nv.1))).filter
        (fun c => c.2 == ty)).map (fun c => c.1)).isEmpty
      = !(DataAgent.hasColOfType ty r) := by
  induction r with
  | nil => rfl
  | cons nv t ih =>
    by_cases h : (DataAgent.inferColumnType nv.2 nv.1 == ty) = true
    · simp [List.filter_cons, h, DataAgent.hasColOfType]
    · have h2 : (DataAgent.inferColumnType nv.2 nv.1 == ty) = false :=
        Bool.eq_false_iff.mpr h
      simp only [List.map_cons, List.filter_cons, if_neg h]
      rw [ih]
      simp [DataAgent.hasColOfType, h2]

/-- The column classifier returns one of exactly three labels. -/
theorem inferColumnType_cases (v : DataAgent.Value) (n : String) :
    DataAgent.inferColumnType v n = "date" ∨ DataAgent.inferColumnType v n = "numeric"
      ∨ DataAgent.inferColumnType v n = "categorical" := by
  simp only [DataAgent.inferColumnType]
  split
  · left; rfl
  · split
    · right; left; rfl
    · right; right; rfl

/-- On classification labels, "neither date nor numeric" is exactly
"categorical". -/
theorem catFilter_list_eq (r : DataAgent.Row) :
    (r.map (fun nv => (nv.1, DataAgent.inferColumnType nv.2 nv.1))).filter
        (fun c => c.2 != "date" && c.2 != "numeric")
      = (r.map (fun nv => (nv.1, DataAgent.inferColumnType nv.2 nv.1))).filter
          (fun c => c.2 == "categorical") := by
  apply List.filter_congr
  intro c hc
  obtain ⟨nv, hnv, rfl⟩ := List.mem_map.mp hc
  rcases inferColumnType_cases nv.2 nv.1 with h | h | h <;>
    simp only [h] <;> rfl

/-- The selector, with its guards and axis bindings re-expressed through
the spec-side predicates. -/
theorem recommend_visualization_eq (r : DataAgent.Row) (rs : List DataAgent.Row) (q : String) :
    DataAgent.recommend_visualization (some (r :: rs)) q =
      if DataAgent.lineApplies r q then
        some ⟨"line-chart", DataAgent.ChartConfig.axes (DataAgent.firstColOfType "date" r)
          (DataAgent.firstColOfType "numeric" r) (r :: rs)⟩
      else if DataAgent.barApplies r q then
        some ⟨"bar-chart", DataAgent.ChartConfig.axes (DataAgent.firstColOfType "categorical" r)
          (DataAgent.firstColOfType "numeric" r) (r :: rs)⟩
      else if DataAgent.pieApplies r q then
        some ⟨"pie-chart", DataAgent.ChartConfig.labels (DataAgent.firstColOfType "categorical" r)
          (DataAgent.firstColOfType "numeric" r) (r :: rs)⟩
      else some ⟨"table", DataAgent.ChartConfig.table (r.map (fun nv => nv.1)) (r :: rs)⟩ := by
  simp only [DataAgent.recommend_visualization, catFilter_list_eq r,
    filterType_isEmpty_eq_any, filterType_head_eq_find,
    DataAgent.lineApplies, DataAgent.barApplies, DataAgent.pieApplies, Bool.not_not]

/-- C8: for a non-empty result set the selector applies the fixed decision
order line-chart (date + numeric column and "over time"/"trend" in the
text), else bar-chart (categorical + numeric and "compare"/"by category"),
else pie-chart (categorical + numeric and "distribution"/"percentage"),
else table; the axis bindings are the first qualifying column of each
required type in the first row's column order. -/
theorem C8_visualization_decision_order (r : DataAgent.Row) (rs : List DataAgent.Row)
    (q : String) :
    (DataAgent.lineApplies r q = true →
      DataAgent.recommend_visualization (some (r :: rs)) q =
        some ⟨"line-chart", DataAgent.ChartConfig.axes (DataAgent.firstColOfType "date" r)
          (DataAgent.firstColOfType "numeric" r) (r :: rs)⟩)
    ∧ (DataAgent.lineApplies r q = false → DataAgent.barApplies r q = true →
        DataAgent.recommend_visualization (some (r :: rs)) q =
          some ⟨"bar-chart", DataAgent.ChartConfig.axes (DataAgent.firstColOfType "categorical" r)
            (DataAgent.firstColOfType "numeric" r) (r :: rs)⟩)
    ∧ (DataAgent.lineApplies r q = false → DataAgent.barApplies r q = false →
        DataAgent.pieApplies r q = true →
        DataAgent.recommend_visualization (some (r :: rs)) q =
          some ⟨"pie-chart", DataAgent.ChartConfig.labels (DataAgent.firstColOfType "categorical" r)
            (DataAgent.firstColOfType "numeric" r) (r :: rs)⟩)
    ∧ (DataAgent.lineApplies r q = false → DataAgent.barApplies r q = false →
        DataAgent.pieApplies r q = false →
        DataAgent.recommend_visualization (some (r :: rs)) q =
          some ⟨"table", DataAgent.ChartConfig.table (r.map (fun nv => nv.1)) (r :: rs)⟩) := by
  refine ⟨?_, ?_, ?_, ?_⟩
  · intro h1
    rw [recommend_visualization_eq]
    simp [h1]
  · intro h1 h2
    rw [recommend_visualization_eq]
    simp [h1, h2]
  · intro h1 h2 h3
    rw [recommend_visualization_eq]
    simp [h1, h2, h3]
  · intro h1 h2 h3
    rw [recommend_visualization_eq]
    simp [h1, h2, h3]

/-- C8 witness: a date column plus a numeric column with "trend" in the
query selects the line chart bound to the first date and numeric
columns. -/
theorem C8_visualization_decision_order_witness :
    DataAgent.recommend_visualization
        (some [[("order_date", DataAgent.Value.str "2023-01-01"),
                ("revenue", DataAgent.Value.int 100)]])
        "show revenue trend" =
      some ⟨"line-chart",
        DataAgent.ChartConfig.axes (some "order_date") (some "revenue")
          [[("order_date", DataAgent.Value.str "2023-01-01"),
            ("revenue", DataAgent.Value.int 100)]]⟩ := by
  have h := (C8_visualization_decision_order
    [("order_date", DataAgent.Value.str "2023-01-01"),
     ("revenue", DataAgent.Value.int 100)] [] "show revenue trend").1 (by decide)
  exact h.trans (by decide)

/-- The class-based table resolver is definitionally the module-level
one (the two source copies are textually identical). -/
theorem du_identify_relevant_table_eq :
    DataUtilities.identify_relevant_table = QueryUtils.identify_relevant_table := rfl

/-- The class-based time-column classifier equals the module-level one. -/
theorem du_identify_time_column_eq :
    DataUtilities.identify_time_column = QueryUtils.identify_time_column := rfl

/-- The class-based category-column classifier equals the module-level
one. -/
theorem du_identify_category_column_eq :
    DataUtilities.identify_category_column = QueryUtils.identify_category_column := rfl

/-- The class-based numeric-column classifier equals the module-level
one. -/
theorem du_identify_numeric_column_eq :
    DataUtilities.identify_numeric_column = QueryUtils.identify_numeric_column := rfl

/-- The class-based aggregation extractor equals the module-level one. -/
theorem du_identify_aggregation_function_eq :
    DataUtilities.identify_aggregation_function = QueryUtils.identify_aggregation_function := rfl

/-- Re-indentation distributes over list concatenation. -/
theorem indentChars_append (a b : List Char) :
    indentChars (a ++ b) = indentChars a ++ indentChars b := by
  induction a with
  | nil => rfl
  | cons c t ih =>
    by_cases h : c = '\n' <;> simp [indentChars, h, ih]

/-- Re-indentation distributes over string concatenation. -/
theorem indent4_append (x y : String) : indent4 (x ++ y) = indent4 x ++ indent4 y := by
  cases x with
  | mk xd =>
    cases y with
    | mk yd =>
      show String.mk (indentChars (xd ++ yd)) = String.mk (indentChars xd ++ indentChars yd)
      rw [indentChars_append]

/-- Newline-free character lists are fixed by re-indentation. -/
theorem indentChars_noNL (l : List Char) (h : '\n' ∉ l) : indentChars l = l := by
  induction l with
  | nil => rfl
  | cons c t ih =>
    have hc : ¬ c = '\n' := by
      intro he
      exact h (by rw [he]; exact List.mem_cons_self _ _)
    have ht : '\n' ∉ t := fun hm => h (List.mem_cons_of_mem c hm)
    simp [indentChars, hc, ih ht]

/-- Newline-free strings are fixed by re-indentation. -/
theorem indent4_noNL (s : String) (h : noNL s) : indent4 s = s := by
  cases s with
  | mk d =>
    show String.mk (indentChars d) = String.mk d
    rw [indentChars_noNL d h]

/-- The resolver only returns entries of the schema. -/
theorem identify_relevant_table_mem (q : String) (s : Schema) (e : String × TableInfo)
    (h : QueryUtils.identify_relevant_table q s = some e) : e ∈ s := by
  simp only [QueryUtils.identify_relevant_table] at h
  cases hf : s.find? (fun e2 => strContains (pyLower q) (pyNormName e2.1)) with
  | some e2 =>
    rw [hf] at h
    cases h
    exact List.mem_of_find?_eq_some hf
  | none =>
    cases s with
    | nil =>
      rw [hf] at h
      exact Option.noConfusion h
    | cons a rest =>
      simp only [hf] at h
      split at h <;> (cases h; exact pyMax1_mem _ a rest)

/-- The time-column classifier returns the name of one of the table's
columns. -/
theorem identify_time_column_mem (t : TableInfo) (n : String)
    (h : QueryUtils.identify_time_column t = some n) : ∃ c ∈ t.columns, c.name = n := by
  simp only [QueryUtils.identify_time_column] at h
  cases hf : t.columns.find? (fun c => containsAnyKw (pyLower c.name) QueryUtils.timeKeywords) with
  | none => rw [hf] at h; exact Option.noConfusion h
  | some c =>
    rw [hf] at h
    cases h
    exact ⟨c, List.mem_of_find?_eq_some hf, rfl⟩

/-- The category-column classifier returns the name of one of the table's
columns. -/
theorem identify_category_column_mem (t : TableInfo) (n : String)
    (h : QueryUtils.identify_category_column t = some n) : ∃ c ∈ t.columns, c.name = n := by
  simp only [QueryUtils.identify_category_column] at h
  cases hf1 : t.columns.find?
      (fun c => containsAnyKw (pyLower c.name) QueryUtils.categoryKeywords) with
  | some c =>
    rw [hf1] at h
    cases h
    exact ⟨c, List.mem_of_find?_eq_some hf1, rfl⟩
  | none =>
    rw [hf1] at h
    cases hf2 : t.columns.find? (fun c =>
        (strContains (pyLower c.type) "char" || strContains (pyLower c.type) "text")
          && !containsAnyKw (pyLower c.name) QueryUtils.timeKeywords) with
    | some c =>
      rw [hf2] at h
      cases h
      exact ⟨c, List.mem_of_find?_eq_some hf2, rfl⟩
    | none =>
      rw [hf2] at h
      cases hf3 : t.columns.find? (fun c => !c.pk) with
      | some c =>
        rw [hf3] at h
        cases h
        exact ⟨c, List.mem_of_find?_eq_some hf3, rfl⟩
      | none =>
        rw [hf3] at h
        cases hh : t.columns.head? with
        | none => rw [hh] at h; exact Option.noConfusion h
        | some c =>
          rw [hh] at h
          cases h
          refine ⟨c, ?_, rfl⟩
          cases hcols : t.columns with
          | nil => rw [hcols] at hh; exact Option.noConfusion hh
          | cons d l =>
            rw [hcols] at hh
            have : d = c := by injection hh
            rw [← this]
            exact List.mem_cons_self d l

/-- The numeric-column classifier returns `*` or the name of one of the
table's columns. -/
theorem identify_numeric_column_cases (t : TableInfo) :
    QueryUtils.identify_numeric_column t = "*"
      ∨ ∃ c ∈ t.columns, c.name = QueryUtils.identify_numeric_column t := by
  cases hf1 : t.columns.find?
      (fun c => containsAnyKw (pyLower c.name) QueryUtils.valueKeywords) with
  | some c =>
    right
    refine ⟨c, List.mem_of_find?_eq_some hf1, ?_⟩
    simp [QueryUtils.identify_numeric_column, hf1]
  | none =>
    cases hf2 : t.columns.find? (fun c =>
        containsAnyKw (pyLower c.type) ["int", "float", "double", "real", "numeric"]
          && !c.pk) with
    | some c =>
      right
      refine ⟨c, List.mem_of_find?_eq_some hf2, ?_⟩
      simp [QueryUtils.identify_numeric_column, hf1, hf2]
    | none =>
      left
      simp [QueryUtils.identify_numeric_column, hf1, hf2]

/-- Numeric-column names inherit newline-freedom from the schema. -/
theorem numeric_col_noNL (t : TableInfo) (h : ∀ c ∈ t.columns, noNL c.name) :
    noNL (QueryUtils.identify_numeric_column t) := by
  rcases identify_numeric_column_cases t with h1 | ⟨c, hc, he⟩
  · rw [h1]; decide
  · rw [← he]; exact h c hc

/-- The aggregation extractor returns one of five literals. -/
theorem identify_aggregation_function_cases (q : String) :
    QueryUtils.identify_aggregation_function q = "AVG"
      ∨ QueryUtils.identify_aggregation_function q = "SUM"
      ∨ QueryUtils.identify_aggregation_function q = "MIN"
      ∨ QueryUtils.identify_aggregation_function q = "MAX"
      ∨ QueryUtils.identify_aggregation_function q = "COUNT" := by
  simp only [QueryUtils.identify_aggregation_function]
  split_ifs <;> simp

/-- Aggregation-function names contain no newline. -/
theorem agg_noNL (q : String) : noNL (QueryUtils.identify_aggregation_function q) := by
  rcases identify_aggregation_function_cases q with h | h | h | h | h <;> rw [h] <;> decide

/-- On any input with newline-free schema names, the two trend generators
agree up to the four extra indentation spaces in the class-based SQL. -/
theorem trend_resultAgree (q : String) (s : Schema) (h : schemaNoNL s) :
    resultAgree (QueryUtils.generate_trend_query q s)
      (DataUtilities.generate_trend_query q s) := by
  simp only [QueryUtils.generate_trend_query, DataUtilities.generate_trend_query,
    du_identify_relevant_table_eq, du_identify_time_column_eq, du_identify_numeric_column_eq,
    du_identify_aggregation_function_eq]
  cases hres : QueryUtils.identify_relevant_table q s with
  | none => simp [resultAgree]
  | some e =>
    obtain ⟨tname, tinfo⟩ := e
    have hpair := identify_relevant_table_mem q s (tname, tinfo) hres
    have hnoNLt : noNL tname := (h _ hpair).1
    have hnoNLcols : ∀ c ∈ tinfo.columns, noNL c.name := (h _ hpair).2
    by_cases ht : tname = ""
    · simp [ht, resultAgree]
    · cases htime : QueryUtils.identify_time_column tinfo with
      | none => simp [ht, htime, resultAgree]
      | some tc =>
        obtain ⟨c, hcmem, hcname⟩ := identify_time_column_mem tinfo tc htime
        have hnoNLtc : noNL tc := hcname ▸ hnoNLcols c hcmem
        by_cases htc0 : tc = ""
        · simp [ht, htime, htc0, resultAgree]
        · have hvc : noNL (QueryUtils.identify_numeric_column tinfo) :=
            numeric_col_noNL tinfo hnoNLcols
          have hag : noNL (QueryUtils.identify_aggregation_function q) := agg_noNL q
          have l1 : indent4 "\n    SELECT " = "\n        SELECT " := by decide
          have l2 : indent4 " as time_period, " = " as time_period, " := by decide
          have l3 : indent4 "(" = "(" := by decide
          have l4 : indent4 ") as value \n    FROM " = ") as value \n        FROM " := by
            decide
          have l5 : indent4 " \n    WHERE " = " \n        WHERE " := by decide
          have l6 : indent4
                " IS NOT NULL\n    GROUP BY time_period \n    ORDER BY time_period;\n    "
              = " IS NOT NULL\n        GROUP BY time_period \n        ORDER BY time_period;\n        " := by
            decide
          have lsf : indent4 "strftime(\x27%Y-%m\x27, " = "strftime(\x27%Y-%m\x27, " := by
            decide
          have lcp : indent4 ")" = ")" := by decide
          have htf : indent4 (if containsAnyKw (pyLower tc) ["time", "date", "_at"] then
                "strftime(\x27%Y-%m\x27, " ++ tc ++ ")" else tc)
              = (if containsAnyKw (pyLower tc) ["time", "date", "_at"] then
                  "strftime(\x27%Y-%m\x27, " ++ tc ++ ")" else tc) := by
            by_cases hb : containsAnyKw (pyLower tc) ["time", "date", "_at"] = true
            · rw [if_pos hb, indent4_append, indent4_append, lsf, lcp,
                indent4_noNL tc hnoNLtc]
            · rw [if_neg hb]
              exact indent4_noNL tc hnoNLtc
          simp only [htime]
          simp only [if_neg ht, if_neg htc0]
          refine ⟨?_, rfl, rfl, rfl, rfl, rfl⟩
          simp only [indent4_append, l1, l2, l3, l4, l5, l6, htf,
            indent4_noNL tname hnoNLt, indent4_noNL tc hnoNLtc,
            indent4_noNL _ hvc, indent4_noNL _ hag]

/-- On any input with newline-free schema names, the two distribution
generators agree up to the four extra indentation spaces in the
class-based SQL. -/
theorem distribution_resultAgree (q : String) (s : Schema) (h : schemaNoNL s) :
    resultAgree (QueryUtils.generate_distribution_query q s)
      (DataUtilities.generate_distribution_query q s) := by
  simp only [QueryUtils.generate_distribution_query, DataUtilities.generate_distribution_query,
    du_identify_relevant_table_eq, du_identify_category_column_eq]
  cases hres : QueryUtils.identify_relevant_table q s with
  | none => simp [resultAgree]
  | some e =>
    obtain ⟨tname, tinfo⟩ := e
    have hpair := identify_relevant_table_mem q s (tname, tinfo) hres
    have hnoNLt : noNL tname := (h _ hpair).1
    have hnoNLcols : ∀ c ∈ tinfo.columns, noNL c.name := (h _ hpair).2
    by_cases ht : tname = ""
    · simp [ht, resultAgree]
    · cases hcat : QueryUtils.identify_category_column tinfo with
      | none => simp [ht, hcat, resultAgree]
      | some cat =>
        obtain ⟨c, hcmem, hcname⟩ := identify_category_column_mem tinfo cat hcat
        have hnoNLcat : noNL cat := hcname ▸ hnoNLcols c hcmem
        by_cases hcat0 : cat = ""
        · simp [ht, hcat, hcat0, resultAgree]
        · have d1 : indent4 "\n    SELECT " = "\n        SELECT " := by decide
          have d2 : indent4 ", COUNT(*) as count \n    FROM "
              = ", COUNT(*) as count \n        FROM " := by decide
          have d3 : indent4 " \n    WHERE " = " \n        WHERE " := by decide
          have d4 : indent4 " IS NOT NULL\n    GROUP BY "
              = " IS NOT NULL\n        GROUP BY " := by decide
          have d5 : indent4 " \n    ORDER BY count DESC;\n    "
              = " \n        ORDER BY count DESC;\n        " := by decide
          simp only [hcat]
          simp only [if_neg ht, if_neg hcat0]
          refine ⟨?_, rfl, rfl, rfl, rfl, rfl⟩
          simp only [indent4_append, d1, d2, d3, d4, d5,
            indent4_noNL tname hnoNLt, indent4_noNL cat hnoNLcat]

/-- C9 counterexample: on a TREND-classified query the two pipelines do
NOT return equal results — the SQL texts differ (the class-based copy
indents each SQL line with eight spaces, the module-level copy with
four). -/
theorem C9_pipelines_not_equal_counterexample :
    QueryUtils.classifyIntent "sales trend" = Intent.trend
    ∧ QueryUtils.nlp_to_sql "sales trend" [("sales", ⟨[⟨"date", "TEXT", false⟩], 10⟩)]
        ≠ DataUtilities.generate_sql "sales trend" [("sales", ⟨[⟨"date", "TEXT", false⟩], 10⟩)] :=
  ⟨by decide, by decide⟩

/-- C9 amended: on TREND- and DISTRIBUTION-classified queries over schemas
with newline-free names, the module-level and class-based pipelines agree
on success flag, visualization type, axes, table and explanation, and
produce the same SQL up to re-indentation (each newline of the
module-level SQL gains four spaces in the class-based SQL); byte equality
of the results fails only because of that indentation. -/
theorem C9_pipelines_agree_up_to_indent_amended (q : String) (s : Schema)
    (h : schemaNoNL s)
    (hi : QueryUtils.classifyIntent q = Intent.trend
      ∨ QueryUtils.classifyIntent q = Intent.distribution) :
    pyAgree (QueryUtils.nlp_to_sql q s) (DataUtilities.generate_sql q s) := by
  rcases hi with hi | hi
  · have hflag := (classifyIntent_trend_iff q).mp hi
    have hdp : DataUtilities.trendPatterns = QueryUtils.trendKeywords := rfl
    simp only [QueryUtils.nlp_to_sql, DataUtilities.generate_sql, hdp, hflag, if_true]
    exact trend_resultAgree q s h
  · obtain ⟨hf1, hf2⟩ := (classifyIntent_distribution_iff q).mp hi
    have hdp1 : DataUtilities.trendPatterns = QueryUtils.trendKeywords := rfl
    have hdp2 : DataUtilities.distributionPatterns = QueryUtils.distributionKeywords := rfl
    simp only [QueryUtils.nlp_to_sql, DataUtilities.generate_sql, hdp1, hdp2, hf1, hf2,
      if_true, Bool.false_eq_true, if_false]
    exact distribution_resultAgree q s h

/-- C9 witness: concrete trend query on which the two pipelines agree up
to indentation. -/
theorem C9_pipelines_agree_up_to_indent_amended_witness :
    pyAgree
      (QueryUtils.nlp_to_sql "sales trend" [("sales", ⟨[⟨"date", "TEXT", false⟩], 10⟩)])
      (DataUtilities.generate_sql "sales trend" [("sales", ⟨[⟨"date", "TEXT", false⟩], 10⟩)]) :=
  C9_pipelines_agree_up_to_indent_amended "sales trend"
    [("sales", ⟨[⟨"date", "TEXT", false⟩], 10⟩)] (by decide) (Or.inl (by decide))
